import Mathlib

/-!
Verification of the find-session coordinator and shortcut-suppression wiring of
`ElectronIframeWebview` (src/vs/workbench/contrib/webview/electron-sandbox/iframeWebviewElement.ts).

The class is embedded shallowly: its mutable fields become a `WebviewState`
record, and each public operation becomes a function from states to a pair of
the successor state and the ordered list of observable effects the call makes
(fires of the `_hasFindResult` emitter and dispatches to the host via
`_webviewMainService`), in program order.
-/

set_option linter.unusedVariables false

/-- Options object of `IWebviewManagerService.findInFrame`. The source's
commented-out code references `FindInPageOptions` with fields `forward`,
`findNext`, `matchCase`; every field is optional, and a bare `{}` leaves all
of them absent (`none`). -/
structure FindInFrameOptions where
  forward : Option Bool := none
  findNext : Option Bool := none
  matchCase : Option Bool := none
  deriving Repr, DecidableEq

/-- Options object of `IWebviewManagerService.stopFindInFrame`: the source
passes `{ keepSelection }`, where `keepSelection` is the (optional) argument
of `stopFind`. -/
structure StopFindInFrameOptions where
  keepSelection : Option Bool := none
  deriving Repr, DecidableEq

/-- A host-process dispatch made through `this._webviewMainService`. -/
inductive HostDispatch where
  | findInFrame (windowId : Nat) (frameId : String) (value : String)
      (options : FindInFrameOptions)
  | stopFindInFrame (windowId : Nat) (frameId : String)
      (options : StopFindInFrameOptions)
  deriving Repr, DecidableEq

/-- An observable effect of one call, in program order: either a fire of the
`_hasFindResult` emitter (the public `hasFindResult` event) or a host
dispatch. -/
inductive TraceEvt where
  | fireFindResult (value : Bool)
  | dispatch (d : HostDispatch)
  deriving Repr, DecidableEq

/-- The mutable and identifying state of one `ElectronIframeWebview`:
`windowId` is `this.nativeHostService.windowId`, `id` is `this.id` (both
immutable), `enableFindWidget` records `options.enableFindWidget` at
construction (it decides whether the found-in-page listener was registered),
`element` is whether `this.element` is non-null (surface readiness), and
`findStarted` is the `_findStarted` field. -/
structure WebviewState where
  windowId : Nat
  id : String
  enableFindWidget : Bool
  element : Bool
  findStarted : Bool
  deriving Repr, DecidableEq

/-- `startFind(value)`: returns immediately when the query is empty (JS
`!value` on a string) or `this.element` is null; otherwise sets
`_findStarted = true` and dispatches `findInFrame` with an empty options
object `{}`. -/
def startFind (s : WebviewState) (value : String) :
    WebviewState × List TraceEvt :=
  if value = "" ∨ s.element = false then (s, [])
  else
    ({ s with findStarted := true },
     [TraceEvt.dispatch (HostDispatch.findInFrame s.windowId s.id value {})])

/-- `find(value, previous)`: returns immediately when `this.element` is null;
delegates to `startFind` when `_findStarted` is false; otherwise dispatches
`findInFrame` with an empty options object `{}`. Note the source never reads
`previous` (the line building `{ findNext: false, forward: !previous }` is
commented out), so the parameter is unused here exactly as in the code. -/
def find (s : WebviewState) (value : String) (previous : Bool) :
    WebviewState × List TraceEvt :=
  if s.element = false then (s, [])
  else if s.findStarted = false then startFind s value
  else
    (s, [TraceEvt.dispatch (HostDispatch.findInFrame s.windowId s.id value {})])

/-- `stopFind(keepSelection?)`: first fires `_hasFindResult` with `false`;
then, if `this.element` is null, returns; otherwise sets
`_findStarted = false` and dispatches `stopFindInFrame` with
`{ keepSelection }`. -/
def stopFind (s : WebviewState) (keepSelection : Option Bool) :
    WebviewState × List TraceEvt :=
  if s.element = false then (s, [TraceEvt.fireFindResult false])
  else
    ({ s with findStarted := false },
     [TraceEvt.fireFindResult false,
      TraceEvt.dispatch (HostDispatch.stopFindInFrame s.windowId s.id
        { keepSelection := keepSelection })])

/-- The `found-in-page` listener: registered in the constructor only when
`options.enableFindWidget` holds, and it fires `_hasFindResult` with
`e.result.matches > 0` (`matchCount` stands for `e.result.matches`; `matches`
is a Lean keyword). When the widget is disabled no listener exists, so a
native result event produces no effect. -/
def foundInPage (s : WebviewState) (matchCount : Nat) :
    WebviewState × List TraceEvt :=
  if s.enableFindWidget = true then
    (s, [TraceEvt.fireFindResult (decide (0 < matchCount))])
  else (s, [])

/-- Recognises a `stopFindInFrame` host dispatch in a trace. -/
def isStopDispatch : TraceEvt → Bool
  | TraceEvt.dispatch (HostDispatch.stopFindInFrame _ _ _) => true
  | _ => false

/-- Modelled from the spec: `WindowIgnoreMenuShortcutsManager`
(`windowIgnoreMenuShortcutsManager.ts` is not under src/; only its caller
`iframeWebviewElement.ts` is). Spec 4.3 describes a two-state machine,
Unsuppressed and Suppressed, per embedded surface. -/
inductive SuppressionState where
  | unsuppressed
  | suppressed
  deriving Repr, DecidableEq

/-- A host-level suppression call: registering or deregistering this window
as one whose global shortcut accelerators are ignored. -/
inductive HostToggle where
  | register
  | deregister
  deriving Repr, DecidableEq

/-- Modelled from the spec: `didFocus` transitions Unsuppressed to Suppressed
and issues exactly one registration call; a redundant focus in the Suppressed
state issues no host call (spec 4.3: resilient to duplicate events). -/
def didFocus : SuppressionState → SuppressionState × List HostToggle
  | SuppressionState.unsuppressed =>
      (SuppressionState.suppressed, [HostToggle.register])
  | SuppressionState.suppressed => (SuppressionState.suppressed, [])

/-- Modelled from the spec: `didBlur` transitions Suppressed to Unsuppressed
and issues exactly one deregistration call; a redundant blur in the
Unsuppressed state issues no host call. -/
def didBlur : SuppressionState → SuppressionState × List HostToggle
  | SuppressionState.suppressed =>
      (SuppressionState.unsuppressed, [HostToggle.deregister])
  | SuppressionState.unsuppressed => (SuppressionState.unsuppressed, [])

/-- A focus-channel event delivered by the surface adapter (the
`didFocus` / `didBlur` message channels the constructor subscribes to). -/
inductive FocusEvt where
  | focus
  | blur
  deriving Repr, DecidableEq

/-- One focus-channel event forwarded to the suppression manager, as wired in
the constructor. -/
def stepFocus : FocusEvt → SuppressionState → SuppressionState × List HostToggle
  | FocusEvt.focus, m => didFocus m
  | FocusEvt.blur, m => didBlur m

/-- A sequence of focus-channel events, accumulating the host toggle calls in
order. -/
def runFocus : List FocusEvt → SuppressionState → SuppressionState × List HostToggle
  | [], m => (m, [])
  | e :: es, m =>
    let r := stepFocus e m
    let rest := runFocus es r.1
    (rest.1, r.2 ++ rest.2)

/-- A concrete webview whose surface is ready and whose find session is
active. -/
def readyActive : WebviewState :=
  { windowId := 7, id := "wv-1", enableFindWidget := true,
    element := true, findStarted := true }

/-- A concrete webview whose surface is ready with no active find session. -/
def readyIdle : WebviewState :=
  { windowId := 7, id := "wv-1", enableFindWidget := true,
    element := true, findStarted := false }

/-- A concrete webview whose surface is not ready while a session is marked
active. -/
def notReadyActive : WebviewState :=
  { windowId := 7, id := "wv-1", enableFindWidget := true,
    element := false, findStarted := true }

/-- A concrete webview constructed without the find widget. -/
def noWidgetReady : WebviewState :=
  { windowId := 3, id := "wv-2", enableFindWidget := false,
    element := true, findStarted := false }

/-- C1: with a session active, `find("q", true)` dispatches `findInFrame`
with an empty options object — no `forward`/`findNext` field carries the
direction — and the call is indistinguishable from `find("q", false)`: the
`previous` flag is dropped, contradicting the method's own doc comment. -/
theorem c1_previous_flag_dropped :
    (find readyActive "q" true).2 =
      [TraceEvt.dispatch (HostDispatch.findInFrame 7 "wv-1" "q"
        { forward := none, findNext := none, matchCase := none })] ∧
    find readyActive "q" true = find readyActive "q" false :=
  ⟨rfl, rfl⟩

/-- C2: with a session active, `find("", false)` dispatches `findInFrame`
with the empty query instead of ignoring it, contradicting the doc comment
"Empty strings are ignored" (while `startFind("")` is correctly a no-op). -/
theorem c2_empty_query_dispatched :
    (find readyActive "" false).2 =
      [TraceEvt.dispatch (HostDispatch.findInFrame 7 "wv-1" ""
        { forward := none, findNext := none, matchCase := none })] ∧
    startFind readyActive "" = (readyActive, []) :=
  ⟨rfl, rfl⟩

/-- C3: counterexample — when the surface is not ready and a session is
marked active, `stopFind` returns before resetting `_findStarted`, so the
started flag stays `true`, refuting "always transitions started to false
regardless of prior state". -/
theorem c3_counterexample :
    (stopFind notReadyActive none).1.findStarted = true ∧
    (stopFind notReadyActive none).1 = notReadyActive :=
  ⟨rfl, rfl⟩

/-- C3 (amended): whenever the surface is ready, after `stopFind` the started
flag is false, and stop is idempotent on the state: a second `stopFind`
leaves the state unchanged. -/
theorem c3_stop_clears_started_when_ready (s : WebviewState)
    (k : Option Bool) (h : s.element = true) :
    (stopFind s k).1.findStarted = false ∧
    (stopFind (stopFind s k).1 k).1 = (stopFind s k).1 := by
  simp [stopFind, h]

/-- C3 witness: the amended theorem at the concrete ready, active state. -/
theorem c3_witness :
    (stopFind readyActive none).1.findStarted = false ∧
    (stopFind (stopFind readyActive none).1 none).1 =
      (stopFind readyActive none).1 :=
  c3_stop_clears_started_when_ready readyActive none rfl

/-- C4: counterexample — `stopFind` dispatches a host stop even with no
session active (one `stopFindInFrame` dispatch from the idle ready state),
and two consecutive `stopFind` calls issue two host stop dispatches, refuting
"only when a session was active" and "at most one host stop dispatch". -/
theorem c4_counterexample :
    (stopFind readyIdle none).2.countP isStopDispatch = 1 ∧
    ((stopFind readyIdle none).2 ++
      (stopFind (stopFind readyIdle none).1 none).2).countP isStopDispatch
      = 2 :=
  ⟨rfl, rfl⟩

/-- C4 (amended): `stopFind` dispatches exactly one host stop request
whenever the surface is ready, regardless of session state (and none when it
is not ready); two consecutive calls therefore each dispatch once, and the
session-state change is observable only on the first call: the second call
leaves the state unchanged. -/
theorem c4_stop_dispatch_when_ready (s : WebviewState) (k : Option Bool)
    (h : s.element = true) :
    (stopFind s k).2.countP isStopDispatch = 1 ∧
    (stopFind (stopFind s k).1 k).2.countP isStopDispatch = 1 ∧
    (stopFind (stopFind s k).1 k).1 = (stopFind s k).1 := by
  simp [stopFind, h, isStopDispatch, List.countP_cons]

/-- C4 witness: the amended theorem at the concrete ready, active state. -/
theorem c4_witness :
    (stopFind readyActive none).2.countP isStopDispatch = 1 ∧
    (stopFind (stopFind readyActive none).1 none).2.countP isStopDispatch
      = 1 ∧
    (stopFind (stopFind readyActive none).1 none).1 =
      (stopFind readyActive none).1 :=
  c4_stop_dispatch_when_ready readyActive none rfl

/-- C5: for every prior state, the first observable effect of `stopFind` is a
fire of the result signal with `false` — it precedes the readiness check and
any host dispatch in the trace. -/
theorem c5_stop_fires_false_first (s : WebviewState) (k : Option Bool) :
    ((stopFind s k).2.head? = some (TraceEvt.fireFindResult false)) := by
  by_cases h : s.element = false <;> simp [stopFind, h]

/-- C6: with no session active, `find q false` is literally `startFind q`
(same successor state and same effect trace), and when the query is non-empty
and the surface ready, the session ends started. -/
theorem c6_find_no_session_equals_startFind (s : WebviewState) (q : String)
    (h : s.findStarted = false) :
    find s q false = startFind s q ∧
    (q ≠ "" → s.element = true → (find s q false).1.findStarted = true) := by
  constructor
  · by_cases he : s.element = false
    · simp [find, startFind, he]
    · simp [find, he, h]
  · intro hq he
    simp [find, startFind, he, h, hq]

/-- C6 witness: the theorem at the concrete idle ready state with query
"foo". -/
theorem c6_witness :
    find readyIdle "foo" false = startFind readyIdle "foo" ∧
    ("foo" ≠ "" → readyIdle.element = true →
      (find readyIdle "foo" false).1.findStarted = true) :=
  c6_find_no_session_equals_startFind readyIdle "foo" rfl

/-- C7: with the find widget enabled, a native result event with match count
n fires the public signal with exactly `n > 0` and changes no state — a pure
pass-through with no cumulative match-count state, so a count-5 event after a
count-0 event fires false then true. -/
theorem c7_result_event_pass_through (s : WebviewState) (n : Nat)
    (h : s.enableFindWidget = true) :
    foundInPage s n = (s, [TraceEvt.fireFindResult (decide (0 < n))]) := by
  simp [foundInPage, h]

/-- C7 witness: the theorem at the concrete ready state with count 5 (fires
true) after count 0 (fires false). -/
theorem c7_witness :
    foundInPage readyIdle 0 = (readyIdle, [TraceEvt.fireFindResult false]) ∧
    foundInPage readyIdle 5 = (readyIdle, [TraceEvt.fireFindResult true]) :=
  ⟨c7_result_event_pass_through readyIdle 0 rfl,
   c7_result_event_pass_through readyIdle 5 rfl⟩

/-- C8: from the unsuppressed state, the event sequence focus, focus, blur
issues exactly the host calls register then deregister — one registration and
one deregistration — and in every state a duplicate focus or blur issues no
host call. -/
theorem c8_focus_dedup :
    (runFocus [FocusEvt.focus, FocusEvt.focus, FocusEvt.blur]
        SuppressionState.unsuppressed).2 =
      [HostToggle.register, HostToggle.deregister] ∧
    (∀ m : SuppressionState,
      (didFocus (didFocus m).1).2 = [] ∧ (didBlur (didBlur m).1).2 = []) := by
  refine ⟨rfl, ?_⟩
  intro m
  cases m <;> exact ⟨rfl, rfl⟩

/-- C9: when the webview is built without `enableFindWidget`, a native result
event fires nothing and changes nothing, while `startFind`, `find` and
`stopFind` produce the same effect traces as with the widget enabled, and
`stopFind` still fires `false` on the signal first. -/
theorem c9_no_widget_no_result_events (s : WebviewState) (n : Nat)
    (q : String) (p : Bool) (k : Option Bool)
    (h : s.enableFindWidget = false) :
    foundInPage s n = (s, []) ∧
    (startFind s q).2 = (startFind { s with enableFindWidget := true } q).2 ∧
    (find s q p).2 = (find { s with enableFindWidget := true } q p).2 ∧
    (stopFind s k).2 = (stopFind { s with enableFindWidget := true } k).2 ∧
    (stopFind s k).2.head? = some (TraceEvt.fireFindResult false) := by
  refine ⟨by simp [foundInPage, h], ?_, ?_, ?_, ?_⟩
  · by_cases hq : q = "" <;> by_cases he : s.element = false <;>
      simp [startFind, hq, he]
  · by_cases he : s.element = false <;> by_cases hf : s.findStarted = false <;>
      by_cases hq : q = "" <;> simp [find, startFind, he, hf, hq]
  · by_cases he : s.element = false <;> simp [stopFind, he]
  · by_cases he : s.element = false <;> simp [stopFind, he]

/-- C9 witness: the theorem at the concrete widget-less ready state. -/
theorem c9_witness :
    foundInPage noWidgetReady 4 = (noWidgetReady, []) ∧
    (startFind noWidgetReady "q").2 =
      (startFind { noWidgetReady with enableFindWidget := true } "q").2 ∧
    (find noWidgetReady "q" false).2 =
      (find { noWidgetReady with enableFindWidget := true } "q" false).2 ∧
    (stopFind noWidgetReady none).2 =
      (stopFind { noWidgetReady with enableFindWidget := true } none).2 ∧
    (stopFind noWidgetReady none).2.head? =
      some (TraceEvt.fireFindResult false) :=
  c9_no_widget_no_result_events noWidgetReady 4 "q" false none rfl

/-- C10: the found-in-page handler ignores session state: after `stopFind`
(which fires `false` first and, on a ready surface, leaves the session not
started), a native result event with a positive match count fires the public
signal with `true` again. -/
theorem c10_result_event_after_stop (s : WebviewState) (n : Nat)
    (k : Option Bool) (hw : s.enableFindWidget = true) (hn : 0 < n) :
    (foundInPage (stopFind s k).1 n).2 = [TraceEvt.fireFindResult true] ∧
    (stopFind s k).2.head? = some (TraceEvt.fireFindResult false) ∧
    (s.element = true → (stopFind s k).1.findStarted = false) := by
  by_cases he : s.element = false <;>
    simp [stopFind, foundInPage, he, hw, hn]

/-- C10 witness: the theorem at the concrete ready, active state with match
count 3. -/
theorem c10_witness :
    (foundInPage (stopFind readyActive none).1 3).2 =
      [TraceEvt.fireFindResult true] ∧
    (stopFind readyActive none).2.head? =
      some (TraceEvt.fireFindResult false) ∧
    (readyActive.element = true →
      (stopFind readyActive none).1.findStarted = false) :=
  c10_result_event_after_stop readyActive 3 none rfl (by decide)
